import Mathlib

/-!
Shallow embedding of the QuickHire generation-request orchestrator
(src/script.js): the form submit handler together with its collaborators
(credit gate, form-data collection, validation, the two generation
requests, usage-state commit, and the UI events it emits).

The submit handler is a straight-line async function; we embed it as a
pure function from its inputs (persisted storage, the DOM/UI state it
reads, and the two fetch results) to a result consisting of the ordered
list of observable events it performs, the outcome it reaches, and the
final persisted storage.
-/

namespace QuickHire

/-- A JavaScript number as it occurs in the credit logic of script.js:
either an integer value or NaN (the result of a failed parseInt).
In this flow numbers only arise from `parseInt(..., 10)` and from
subtracting 1, so no non-integral values occur. -/
inductive JSNum where
  | nan : JSNum
  | int : Int → JSNum
deriving DecidableEq, Repr

/-- Maximal run of leading decimal digits. -/
def takeDigits : List Char → List Char
  | [] => []
  | c :: cs => if c.isDigit then c :: takeDigits cs else []

/-- Value of a digit string read in base 10. -/
def digitsToNat (ds : List Char) : Nat :=
  ds.foldl (fun acc c => acc * 10 + (c.toNat - 48)) 0

/-- JS `parseInt(s, 10)`: skip leading whitespace, an optional sign,
then the maximal run of decimal digits (trailing garbage ignored);
NaN when no digit is found. -/
def parseIntJS (s : String) : JSNum :=
  let cs := s.data.dropWhile Char.isWhitespace
  match cs with
  | '-' :: rest =>
    match takeDigits rest with
    | [] => JSNum.nan
    | ds => JSNum.int (-(digitsToNat ds : Int))
  | '+' :: rest =>
    match takeDigits rest with
    | [] => JSNum.nan
    | ds => JSNum.int ((digitsToNat ds : Int))
  | _ =>
    match takeDigits cs with
    | [] => JSNum.nan
    | ds => JSNum.int ((digitsToNat ds : Int))

/-- JS number-to-string coercion as performed by
`localStorage.setItem('quickhire_credits', credits)`. -/
def jsNumToString : JSNum → String
  | JSNum.nan => "NaN"
  | JSNum.int v => toString v

/-- JS comparison `credits <= 0`: false when credits is NaN. -/
def jsLeZero : JSNum → Bool
  | JSNum.nan => false
  | JSNum.int v => decide (v ≤ 0)

/-- JS `credits -= 1` (NaN - 1 = NaN). -/
def jsSub1 : JSNum → JSNum
  | JSNum.nan => JSNum.nan
  | JSNum.int v => JSNum.int (v - 1)

/-- JS `x || d` over `localStorage.getItem` results: `getItem` yields
null (none) when the key is absent, and the empty string is falsy. -/
def jsOrDefault (x : Option String) (d : String) : String :=
  match x with
  | none => d
  | some s => if s = "" then d else s

/-- The persisted localStorage keys the handler touches. -/
structure Storage where
  quickhire_plan : Option String
  quickhire_credits : Option String
deriving DecidableEq, Repr

/-- The DOM/UI state the submit handler reads: raw field values
(none = element absent), the skill-tag texts, and presence of the
credit-count display and the progress elements. -/
structure UIState where
  currentPosition : Option String
  yearsExperience : Option String
  education : Option String
  skillTags : List String
  experienceField : Option String
  targetPosition : Option String
  achievements : Option String
  projects : Option String
  industry : Option String
  tone : Option String
  jobDescription : Option String
  creditCountEl : Bool
  progressEls : Bool
deriving DecidableEq, Repr

/-- JS `String.prototype.trim()`: drop whitespace from both ends. -/
def trimJS (s : String) : String :=
  ⟨((s.data.dropWhile Char.isWhitespace).reverse.dropWhile
      Char.isWhitespace).reverse⟩

/-- `getVal`: `(document.getElementById(id)?.value || '').trim()`. -/
def getVal (raw : Option String) : String := trimJS (raw.getD "")

/-- The SubmissionRecord built by the handler (the `formData` object). -/
structure FormData where
  current_position : String
  years_experience : String
  education : String
  skills : List String
  experienceText : String
  target_position : String
  achievements : String
  projects : String
  industry : String
  tone : String
  job_description : String
deriving DecidableEq, Repr

/-- FormDataCollector: lines 83-96 of script.js. -/
def collectFormData (ui : UIState) : FormData :=
  { current_position := getVal ui.currentPosition
    years_experience := getVal ui.yearsExperience
    education := getVal ui.education
    skills := ui.skillTags.map trimJS
    experienceText := getVal ui.experienceField
    target_position := getVal ui.targetPosition
    achievements := getVal ui.achievements
    projects := getVal ui.projects
    industry := getVal ui.industry
    tone := getVal ui.tone
    job_description := getVal ui.jobDescription }

/-- SubmissionValidator: the loop over
`['current_position', 'years_experience', 'target_position', 'industry']`
returns on the first empty (falsy) field, in that order. -/
def firstMissingField (fd : FormData) : Option String :=
  if fd.current_position = "" then some "current_position"
  else if fd.years_experience = "" then some "years_experience"
  else if fd.target_position = "" then some "target_position"
  else if fd.industry = "" then some "industry"
  else none

/-- All required fields that are empty, for reasoning about validation
results (same four fields the loop checks). -/
def missingFields (fd : FormData) : List String :=
  (if fd.current_position = "" then ["current_position"] else []) ++
  (if fd.years_experience = "" then ["years_experience"] else []) ++
  (if fd.target_position = "" then ["target_position"] else []) ++
  (if fd.industry = "" then ["industry"] else [])

/-- CreditGate condition of line 75:
`userPlan !== 'premium' && credits <= 0` (true = submission blocked). -/
def gateBlocks (st : Storage) : Bool :=
  (jsOrDefault st.quickhire_plan "free" != "premium") &&
    jsLeZero (parseIntJS (jsOrDefault st.quickhire_credits "1"))

/-- Result of an awaited `fetch`: a transport error (promise rejection)
or a response with its `ok` flag and binary body (blobs numbered). -/
inductive FetchResult where
  | netError (message : String)
  | response (ok : Bool) (blob : Nat)
deriving DecidableEq, Repr

/-- Whether an awaited fetch produced a response with `ok` true. -/
def fetchOk : FetchResult → Bool
  | FetchResult.netError _ => false
  | FetchResult.response ok _ => ok

/-- Observable actions of one run of the submit handler, in program
order. -/
inductive Event where
  | statusSet (text : String)
  | storageRead (key : String)
  | gateEvaluated
  | progressShown
  | fetchIssued (url : String)
  | download (blob : Nat) (filename : String)
  | storageWrite (key : String) (value : String)
  | creditDisplaySet (text : String)
  | toast (message : String) (kind : String)
  | progressCompleted
deriving DecidableEq, Repr

/-- Where one orchestration run ends, tagged by the site that threw
(or returned) as the spec's GenerationOutcome stages. -/
inductive Outcome where
  | success
  | failedCreditGate
  | failedValidation
  | failedResumeRequest (message : String)
  | failedCoverLetterRequest (message : String)
  | failedUnexpected (message : String)
deriving DecidableEq, Repr

/-- One run of the handler: its ordered events, outcome, and the final
persisted storage. -/
structure HandlerResult where
  events : List Event
  outcome : Outcome
  storage : Storage
deriving DecidableEq, Repr

/-- The catch block (lines 158-162): error toast and status update;
storage stays at whatever it was when the throw happened. -/
def catchResult (st : Storage) (evs : List Event) (msg : String)
    (oc : Outcome) : HandlerResult :=
  { events := evs ++ [Event.toast ("❌ Error: " ++ msg) "error",
      Event.statusSet "Error occurred."]
    outcome := oc
    storage := st }

/-- The form submit handler, lines 53-167 of script.js, as a function of
the persisted storage, the UI state, and the two fetch results (the
resume response and the cover-letter response, in the order the requests
are issued). -/
def formSubmitHandler (st : Storage) (ui : UIState)
    (resumeResp coverResp : FetchResult) : HandlerResult :=
  let ev0 : List Event :=
    [Event.statusSet "Generating documents...",
     Event.storageRead "quickhire_credits",
     Event.storageRead "quickhire_plan",
     Event.gateEvaluated]
  let credits := parseIntJS (jsOrDefault st.quickhire_credits "1")
  let userPlan := jsOrDefault st.quickhire_plan "free"
  if gateBlocks st then
    { events := ev0 ++
        [Event.toast "No credits left. Please invite friends or upgrade." "error"]
      outcome := Outcome.failedCreditGate
      storage := st }
  else
    let fd := collectFormData ui
    match firstMissingField fd with
    | some _ =>
      { events := ev0 ++
          [Event.toast "Please fill out all required fields." "error"]
        outcome := Outcome.failedValidation
        storage := st }
    | none =>
      let ev1 := ev0 ++ (if ui.progressEls then [Event.progressShown] else [])
      let ev2 := ev1 ++ [Event.fetchIssued "http://localhost:8000/generate-resume"]
      match resumeResp with
      | FetchResult.netError msg =>
        catchResult st ev2 msg (Outcome.failedResumeRequest msg)
      | FetchResult.response rok rblob =>
        if rok then
          let ev3 := ev2 ++
            [Event.download rblob "QuickHire_Resume.pdf",
             Event.fetchIssued "http://localhost:8000/generate-cover-letter"]
          match coverResp with
          | FetchResult.netError msg =>
            catchResult st ev3 msg (Outcome.failedCoverLetterRequest msg)
          | FetchResult.response cok cblob =>
            if cok then
              let ev4 := ev3 ++
                [Event.download cblob "QuickHire_Cover_Letter.pdf"]
              let newCredits :=
                if userPlan = "premium" then credits else jsSub1 credits
              let st2 :=
                if userPlan = "premium" then st
                else { st with
                  quickhire_credits := some (jsNumToString newCredits) }
              let ev5 := ev4 ++
                (if userPlan = "premium" then []
                 else [Event.storageWrite "quickhire_credits"
                   (jsNumToString newCredits)])
              if ui.creditCountEl then
                { events := ev5 ++
                    [Event.creditDisplaySet
                       (if userPlan = "premium" then "∞"
                        else jsNumToString newCredits),
                     Event.toast "Your Resume & Cover Letter are ready!" "success",
                     Event.statusSet "Generation complete."] ++
                    (if ui.progressEls then [Event.progressCompleted] else [])
                  outcome := Outcome.success
                  storage := st2 }
              else
                catchResult st2 ev5 "Cannot set properties of null"
                  (Outcome.failedUnexpected "Cannot set properties of null")
            else
              catchResult st ev3 "Failed to generate cover letter."
                (Outcome.failedCoverLetterRequest "Failed to generate cover letter.")
        else
          catchResult st ev2 "Failed to generate resume."
            (Outcome.failedResumeRequest "Failed to generate resume.")

/-- Download events of a run, in order. -/
def downloadsOf (evs : List Event) : List (Nat × String) :=
  evs.filterMap fun e =>
    match e with
    | Event.download b f => some (b, f)
    | _ => none

/-- Network requests issued by a run, in order. -/
def fetchesOf (evs : List Event) : List String :=
  evs.filterMap fun e =>
    match e with
    | Event.fetchIssued u => some u
    | _ => none

/-- Storage writes performed by a run, in order. -/
def writesOf (evs : List Event) : List (String × String) :=
  evs.filterMap fun e =>
    match e with
    | Event.storageWrite k v => some (k, v)
    | _ => none

/-- Toast notifications surfaced by a run, in order (message, kind). -/
def toastsOf (evs : List Event) : List (String × String) :=
  evs.filterMap fun e =>
    match e with
    | Event.toast m k => some (m, k)
    | _ => none

/-- Whether the character list `w` occurs at the head of `s`. -/
def segAt : List Char → List Char → Bool
  | _, [] => true
  | [], _ :: _ => false
  | c :: cs, d :: ds => c == d && segAt cs ds

/-- Whether the character list `w` occurs anywhere inside `s`. -/
def hasSeg : List Char → List Char → Bool
  | [], w => segAt [] w
  | c :: cs, w => segAt (c :: cs) w || hasSeg cs w

/-- Whether the text `w` occurs inside the message `msg` (used to state
that a message names a field). -/
def mentions (msg w : String) : Bool := hasSeg msg.data w.data

end QuickHire

/-!
Concrete storage and UI states used to instantiate the theorems below.
-/

namespace QuickHire

/-- Persisted state: free plan with one credit. -/
def stFree1 : Storage :=
  { quickhire_plan := some "free", quickhire_credits := some "1" }

/-- Persisted state: free plan with zero credits. -/
def stFree0 : Storage :=
  { quickhire_plan := some "free", quickhire_credits := some "0" }

/-- Persisted state: free plan with a credits string that does not parse
as an integer. -/
def stNanFree : Storage :=
  { quickhire_plan := some "free", quickhire_credits := some "abc" }

/-- A UI state with every required field filled and all display elements
present. -/
def uiFull : UIState :=
  { currentPosition := some "Developer", yearsExperience := some "3",
    education := some "BS", skillTags := ["Java", " SQL "],
    experienceField := some "built things",
    targetPosition := some "Senior Developer",
    achievements := none, projects := none, industry := some "Tech",
    tone := some "formal", jobDescription := none,
    creditCountEl := true, progressEls := true }

/-- Same as `uiFull` but the industry field holds only whitespace, so it
is empty after trimming. -/
def uiNoIndustry : UIState := { uiFull with industry := some "   " }

/-- Same as `uiFull` but the credit-count display element is absent from
the DOM. -/
def uiNoCreditEl : UIState := { uiFull with creditCountEl := false }

/-- An element of one of the singleton lists `missingFields` is built
from is the field name it carries. -/
theorem mem_ite_singleton {c : Prop} [Decidable c] {g x : String}
    (h : g ∈ if c then [x] else ([] : List String)) : g = x := by
  split at h
  · simpa using h
  · simp at h

end QuickHire

namespace QuickHire

/-- C1 (amended): for every submission in which the resume request
succeeds but the cover-letter request fails (transport error or
non-success status), the resume artifact has already been offered for
download — exactly one download, the resume — while the cover letter is
not offered, and the persisted credit balance is unchanged (no storage
write). -/
theorem c1_cover_letter_failure_amended (st : Storage) (ui : UIState)
    (rb : Nat) (cr : FetchResult)
    (hg : gateBlocks st = false)
    (hv : firstMissingField (collectFormData ui) = none)
    (hcf : fetchOk cr = false) :
    downloadsOf (formSubmitHandler st ui (FetchResult.response true rb) cr).events =
      [(rb, "QuickHire_Resume.pdf")] ∧
    (formSubmitHandler st ui (FetchResult.response true rb) cr).storage = st ∧
    writesOf (formSubmitHandler st ui (FetchResult.response true rb) cr).events =
      [] := by
  cases cr with
  | netError m =>
    cases hpe : ui.progressEls <;>
      simp [formSubmitHandler, hg, hv, hpe, catchResult, downloadsOf, writesOf]
  | response ok b =>
    simp only [fetchOk] at hcf
    subst hcf
    cases hpe : ui.progressEls <;>
      simp [formSubmitHandler, hg, hv, hpe, catchResult, downloadsOf, writesOf]

/-- C1 counterexample: with a free plan, one credit, all fields filled,
resume request succeeding and cover-letter request returning a
non-success status, the run does offer an artifact for download (the
resume), contradicting the claim that no artifact is offered. -/
theorem c1_counterexample :
    downloadsOf (formSubmitHandler stFree1 uiFull (FetchResult.response true 7)
      (FetchResult.response false 0)).events = [(7, "QuickHire_Resume.pdf")] ∧
    downloadsOf (formSubmitHandler stFree1 uiFull (FetchResult.response true 7)
      (FetchResult.response false 0)).events ≠ [] := by decide

/-- C1 witness: the amended theorem applied to a concrete run. -/
theorem c1_witness :
    downloadsOf (formSubmitHandler stFree1 uiFull (FetchResult.response true 7)
        (FetchResult.response false 0)).events = [(7, "QuickHire_Resume.pdf")] ∧
    (formSubmitHandler stFree1 uiFull (FetchResult.response true 7)
        (FetchResult.response false 0)).storage = stFree1 ∧
    writesOf (formSubmitHandler stFree1 uiFull (FetchResult.response true 7)
        (FetchResult.response false 0)).events = [] :=
  c1_cover_letter_failure_amended stFree1 uiFull 7 (FetchResult.response false 0)
    (by decide) (by decide) (by decide)

/-- C2 (amended): for every submission with some required field empty
after trimming that is not blocked by the credit gate, the orchestrator
ends in Failed(validation), no network request is issued, no storage
write occurs, and UsageState is unchanged; however the storage reads and
the credit-gate evaluation happen before validation, not after. -/
theorem c2_validation_after_gate_amended (st : Storage) (ui : UIState)
    (rr cr : FetchResult) (f : String)
    (hg : gateBlocks st = false)
    (hf : firstMissingField (collectFormData ui) = some f) :
    (formSubmitHandler st ui rr cr).outcome = Outcome.failedValidation ∧
    fetchesOf (formSubmitHandler st ui rr cr).events = [] ∧
    writesOf (formSubmitHandler st ui rr cr).events = [] ∧
    (formSubmitHandler st ui rr cr).storage = st ∧
    Event.storageRead "quickhire_credits" ∈ (formSubmitHandler st ui rr cr).events ∧
    Event.gateEvaluated ∈ (formSubmitHandler st ui rr cr).events := by
  simp [formSubmitHandler, hg, hf, fetchesOf, writesOf]

/-- C2 counterexample: with the required industry field empty but a free
plan at zero credits, the run ends in Failed(credit-gate), not
Failed(validation), and the persisted credits were read before the run
ended — the claim that validation failure precedes any storage access
and the credit gate is false. -/
theorem c2_counterexample :
    firstMissingField (collectFormData uiNoIndustry) = some "industry" ∧
    (formSubmitHandler stFree0 uiNoIndustry (FetchResult.response true 7)
      (FetchResult.response true 8)).outcome = Outcome.failedCreditGate ∧
    (formSubmitHandler stFree0 uiNoIndustry (FetchResult.response true 7)
      (FetchResult.response true 8)).outcome ≠ Outcome.failedValidation ∧
    Event.storageRead "quickhire_credits" ∈
      (formSubmitHandler stFree0 uiNoIndustry (FetchResult.response true 7)
        (FetchResult.response true 8)).events := by decide

/-- C2 witness: the amended theorem applied to a concrete run with an
empty industry field and one credit. -/
theorem c2_witness :
    (formSubmitHandler stFree1 uiNoIndustry (FetchResult.response true 7)
      (FetchResult.response true 8)).outcome = Outcome.failedValidation ∧
    fetchesOf (formSubmitHandler stFree1 uiNoIndustry (FetchResult.response true 7)
      (FetchResult.response true 8)).events = [] ∧
    writesOf (formSubmitHandler stFree1 uiNoIndustry (FetchResult.response true 7)
      (FetchResult.response true 8)).events = [] ∧
    (formSubmitHandler stFree1 uiNoIndustry (FetchResult.response true 7)
      (FetchResult.response true 8)).storage = stFree1 ∧
    Event.storageRead "quickhire_credits" ∈
      (formSubmitHandler stFree1 uiNoIndustry (FetchResult.response true 7)
        (FetchResult.response true 8)).events ∧
    Event.gateEvaluated ∈
      (formSubmitHandler stFree1 uiNoIndustry (FetchResult.response true 7)
        (FetchResult.response true 8)).events :=
  c2_validation_after_gate_amended stFree1 uiNoIndustry
    (FetchResult.response true 7) (FetchResult.response true 8) "industry"
    (by decide) (by decide)

/-- C3: for every submission in which the resume request errors or
returns a non-success status, the cover-letter request is never issued
(the only request of the run is the resume request) and the persisted
UsageState is not modified. -/
theorem c3_resume_failure_stops (st : Storage) (ui : UIState)
    (rr cr : FetchResult)
    (hg : gateBlocks st = false)
    (hv : firstMissingField (collectFormData ui) = none)
    (hr : fetchOk rr = false) :
    fetchesOf (formSubmitHandler st ui rr cr).events =
      ["http://localhost:8000/generate-resume"] ∧
    (formSubmitHandler st ui rr cr).storage = st ∧
    writesOf (formSubmitHandler st ui rr cr).events = [] := by
  cases rr with
  | netError m =>
    cases hpe : ui.progressEls <;>
      simp [formSubmitHandler, hg, hv, hpe, catchResult, fetchesOf, writesOf]
  | response ok b =>
    simp only [fetchOk] at hr
    subst hr
    cases hpe : ui.progressEls <;>
      simp [formSubmitHandler, hg, hv, hpe, catchResult, fetchesOf, writesOf]

/-- C3 witness: the theorem applied to a concrete run whose resume
request returns a non-success status. -/
theorem c3_witness :
    fetchesOf (formSubmitHandler stFree1 uiFull (FetchResult.response false 0)
      (FetchResult.response true 8)).events =
      ["http://localhost:8000/generate-resume"] ∧
    (formSubmitHandler stFree1 uiFull (FetchResult.response false 0)
      (FetchResult.response true 8)).storage = stFree1 ∧
    writesOf (formSubmitHandler stFree1 uiFull (FetchResult.response false 0)
      (FetchResult.response true 8)).events = [] :=
  c3_resume_failure_stops stFree1 uiFull (FetchResult.response false 0)
    (FetchResult.response true 8) (by decide) (by decide) (by decide)

/-- C4: for every submission that succeeds end-to-end (both requests
return success, credit display present), if the plan is premium the
persisted UsageState is unchanged and the displayed credit count is set
to the infinity sign; otherwise the persisted credits value decreases by
exactly 1 (from the parsed integer balance c to c - 1) and the display
shows the new numeric balance. -/
theorem c4_success_credit_update (st : Storage) (ui : UIState)
    (rb cb : Nat) (c : Int)
    (hg : gateBlocks st = false)
    (hv : firstMissingField (collectFormData ui) = none)
    (hel : ui.creditCountEl = true)
    (hc : parseIntJS (jsOrDefault st.quickhire_credits "1") = JSNum.int c) :
    (jsOrDefault st.quickhire_plan "free" = "premium" →
      (formSubmitHandler st ui (FetchResult.response true rb)
          (FetchResult.response true cb)).storage = st ∧
      Event.creditDisplaySet "∞" ∈
        (formSubmitHandler st ui (FetchResult.response true rb)
          (FetchResult.response true cb)).events) ∧
    (jsOrDefault st.quickhire_plan "free" ≠ "premium" →
      (formSubmitHandler st ui (FetchResult.response true rb)
          (FetchResult.response true cb)).storage.quickhire_credits =
        some (toString (c - 1)) ∧
      (formSubmitHandler st ui (FetchResult.response true rb)
          (FetchResult.response true cb)).storage.quickhire_plan =
        st.quickhire_plan ∧
      Event.creditDisplaySet (toString (c - 1)) ∈
        (formSubmitHandler st ui (FetchResult.response true rb)
          (FetchResult.response true cb)).events) := by
  constructor
  · intro hp
    cases hpe : ui.progressEls <;>
      simp [formSubmitHandler, hg, hv, hel, hp, hpe]
  · intro hp
    cases hpe : ui.progressEls <;>
      simp [formSubmitHandler, hg, hv, hel, hp, hpe, hc, jsSub1, jsNumToString]

/-- C4 witness: the theorem applied to a fully successful free-plan run
starting from one credit. -/
theorem c4_witness :
    (formSubmitHandler stFree1 uiFull (FetchResult.response true 7)
        (FetchResult.response true 8)).storage.quickhire_credits =
      some (toString ((1 : Int) - 1)) ∧
    (formSubmitHandler stFree1 uiFull (FetchResult.response true 7)
        (FetchResult.response true 8)).storage.quickhire_plan =
      stFree1.quickhire_plan ∧
    Event.creditDisplaySet (toString ((1 : Int) - 1)) ∈
      (formSubmitHandler stFree1 uiFull (FetchResult.response true 7)
        (FetchResult.response true 8)).events :=
  (c4_success_credit_update stFree1 uiFull 7 8 1
    (by decide) (by decide) rfl (by decide)).2 (by decide)

/-- C5: the credit gate admits a submission iff the plan is premium
(regardless of the credit value) or the parsed integer credits are
positive; and for every submission with plan free and credits 0 the
orchestrator ends in Failed(credit-gate) without issuing any network
request. -/
theorem c5_credit_gate (st : Storage) (ui : UIState) (rr cr : FetchResult)
    (c : Int) :
    (jsOrDefault st.quickhire_plan "free" = "premium" → gateBlocks st = false) ∧
    (parseIntJS (jsOrDefault st.quickhire_credits "1") = JSNum.int c →
      (gateBlocks st = false ↔
        (jsOrDefault st.quickhire_plan "free" = "premium" ∨ 0 < c))) ∧
    (jsOrDefault st.quickhire_plan "free" = "free" →
      parseIntJS (jsOrDefault st.quickhire_credits "1") = JSNum.int 0 →
      (formSubmitHandler st ui rr cr).outcome = Outcome.failedCreditGate ∧
      fetchesOf (formSubmitHandler st ui rr cr).events = []) := by
  refine ⟨?_, ?_, ?_⟩
  · intro hp
    simp [gateBlocks, hp]
  · intro hc
    by_cases hp : jsOrDefault st.quickhire_plan "free" = "premium"
    · simp [gateBlocks, hp, hc, jsLeZero]
    · simp [gateBlocks, hp, hc, jsLeZero]
  · intro hp hc
    have hgb : gateBlocks st = true := by simp [gateBlocks, hp, hc, jsLeZero]
    simp [formSubmitHandler, hgb, fetchesOf]

/-- C5 witness: the theorem applied to a free-plan run at zero credits. -/
theorem c5_witness :
    (formSubmitHandler stFree0 uiFull (FetchResult.response true 7)
      (FetchResult.response true 8)).outcome = Outcome.failedCreditGate ∧
    fetchesOf (formSubmitHandler stFree0 uiFull (FetchResult.response true 7)
      (FetchResult.response true 8)).events = [] :=
  (c5_credit_gate stFree0 uiFull (FetchResult.response true 7)
    (FetchResult.response true 8) 0).2.2 (by decide) (by decide)

/-- C6 (amended): for every submission rejected by validation, the only
notification surfaced is the fixed generic message, which does not
contain the name of any missing required field. -/
theorem c6_generic_validation_message (st : Storage) (ui : UIState)
    (rr cr : FetchResult) (f : String)
    (hg : gateBlocks st = false)
    (hf : firstMissingField (collectFormData ui) = some f) :
    toastsOf (formSubmitHandler st ui rr cr).events =
      [("Please fill out all required fields.", "error")] ∧
    (∀ g ∈ missingFields (collectFormData ui),
      mentions "Please fill out all required fields." g = false) := by
  constructor
  · simp [formSubmitHandler, hg, hf, toastsOf]
  · intro g hgm
    unfold missingFields at hgm
    rcases List.mem_append.1 hgm with h | h
    rcases List.mem_append.1 h with h | h
    rcases List.mem_append.1 h with h | h
    · rw [mem_ite_singleton h]; decide
    · rw [mem_ite_singleton h]; decide
    · rw [mem_ite_singleton h]; decide
    · rw [mem_ite_singleton h]; decide

/-- C6 counterexample: with exactly one missing required field
(industry), the surfaced failure message is the generic text, which does
not mention the missing field — so the result does not name any missing
field. -/
theorem c6_counterexample :
    toastsOf (formSubmitHandler stFree1 uiNoIndustry (FetchResult.response true 7)
      (FetchResult.response true 8)).events =
      [("Please fill out all required fields.", "error")] ∧
    missingFields (collectFormData uiNoIndustry) = ["industry"] ∧
    mentions "Please fill out all required fields." "industry" = false := by decide

/-- C6 witness: the amended theorem applied to a concrete run missing
only the industry field. -/
theorem c6_witness :
    toastsOf (formSubmitHandler stFree1 uiNoIndustry (FetchResult.response true 7)
      (FetchResult.response true 8)).events =
      [("Please fill out all required fields.", "error")] ∧
    mentions "Please fill out all required fields." "industry" = false := by
  have h := c6_generic_validation_message stFree1 uiNoIndustry
    (FetchResult.response true 7) (FetchResult.response true 8) "industry"
    (by decide) (by decide)
  exact ⟨h.1, h.2 "industry" (by decide)⟩

/-- C7: over all orchestration runs starting from a plan in the data
model domain and a non-negative parsed integer balance c, every storage
write of the run writes the credits key with exactly c - 1, which is
still non-negative, and such a write happens only when the plan is free
and only when both the resume and the cover-letter requests succeeded. -/
theorem c7_credit_decrement_invariant (st : Storage) (ui : UIState)
    (rr cr : FetchResult) (c : Int)
    (hplan : jsOrDefault st.quickhire_plan "free" = "free" ∨
      jsOrDefault st.quickhire_plan "free" = "premium")
    (hc : parseIntJS (jsOrDefault st.quickhire_credits "1") = JSNum.int c)
    (_hnn : 0 ≤ c) :
    ∀ k v, Event.storageWrite k v ∈ (formSubmitHandler st ui rr cr).events →
      k = "quickhire_credits" ∧ v = toString (c - 1) ∧ 0 ≤ c - 1 ∧
      jsOrDefault st.quickhire_plan "free" = "free" ∧
      fetchOk rr = true ∧ fetchOk cr = true := by
  intro k v hmem
  by_cases hg : gateBlocks st = true
  · simp [formSubmitHandler, hg] at hmem
  · rw [Bool.not_eq_true] at hg
    cases hfm : firstMissingField (collectFormData ui) with
    | some f => simp [formSubmitHandler, hg, hfm] at hmem
    | none =>
      cases rr with
      | netError m =>
        cases hpe : ui.progressEls <;>
          simp [formSubmitHandler, hg, hfm, hpe, catchResult] at hmem
      | response rok rb =>
        cases rok with
        | false =>
          cases hpe : ui.progressEls <;>
            simp [formSubmitHandler, hg, hfm, hpe, catchResult] at hmem
        | true =>
          cases cr with
          | netError m =>
            cases hpe : ui.progressEls <;>
              simp [formSubmitHandler, hg, hfm, hpe, catchResult] at hmem
          | response cok cb =>
            cases cok with
            | false =>
              cases hpe : ui.progressEls <;>
                simp [formSubmitHandler, hg, hfm, hpe, catchResult] at hmem
            | true =>
              by_cases hp : jsOrDefault st.quickhire_plan "free" = "premium"
              · cases hel : ui.creditCountEl <;> cases hpe : ui.progressEls <;>
                  simp [formSubmitHandler, hg, hfm, hp, hel, hpe, catchResult]
                    at hmem
              · have hfree : jsOrDefault st.quickhire_plan "free" = "free" :=
                  hplan.resolve_right hp
                have hpos : 0 < c := by
                  simp [gateBlocks, hfree, hc, jsLeZero] at hg
                  exact hg
                cases hel : ui.creditCountEl <;> cases hpe : ui.progressEls <;>
                  simp [formSubmitHandler, hg, hfm, hp, hel, hpe, catchResult,
                    hc, jsSub1, jsNumToString] at hmem <;>
                  exact ⟨hmem.1, hmem.2, by omega, hfree, rfl, rfl⟩

/-- C7 witness: the invariant applied to the storage write of a concrete
fully successful free-plan run starting from one credit. -/
theorem c7_witness :
    "quickhire_credits" = "quickhire_credits" ∧
    "0" = toString ((1 : Int) - 1) ∧ 0 ≤ (1 : Int) - 1 ∧
    jsOrDefault stFree1.quickhire_plan "free" = "free" ∧
    fetchOk (FetchResult.response true 7) = true ∧
    fetchOk (FetchResult.response true 8) = true :=
  c7_credit_decrement_invariant stFree1 uiFull (FetchResult.response true 7)
    (FetchResult.response true 8) 1 (Or.inl (by decide)) (by decide) (by decide)
    "quickhire_credits" "0" (by decide)

/-- C8: form-data collection is a pure, deterministic function of the UI
state: two collections over an unchanged UI state yield structurally
equal SubmissionRecords. -/
theorem c8_collector_deterministic (ui1 ui2 : UIState) (h : ui1 = ui2) :
    collectFormData ui1 = collectFormData ui2 := by rw [h]

/-- C8 witness: the theorem applied to a concrete UI state. -/
theorem c8_witness : collectFormData uiFull = collectFormData uiFull :=
  c8_collector_deterministic uiFull uiFull rfl

/-- C9: when the persisted credits string does not parse as an integer
(parseInt yields NaN), the credit gate admits the submission even on a
free plan; the gate blocks only when the parsed value is an integer ≤ 0;
and after a fully successful run the non-numeric value NaN is persisted
as the new credit balance. -/
theorem c9_nan_credits (st : Storage) (ui : UIState) (rb cb : Nat)
    (hnan : parseIntJS (jsOrDefault st.quickhire_credits "1") = JSNum.nan) :
    gateBlocks st = false ∧
    (∀ st2 : Storage, gateBlocks st2 = true →
      ∃ v : Int, parseIntJS (jsOrDefault st2.quickhire_credits "1") =
        JSNum.int v ∧ v ≤ 0) ∧
    (firstMissingField (collectFormData ui) = none →
      jsOrDefault st.quickhire_plan "free" ≠ "premium" →
      (formSubmitHandler st ui (FetchResult.response true rb)
          (FetchResult.response true cb)).storage.quickhire_credits =
        some "NaN") := by
  refine ⟨?_, ?_, ?_⟩
  · simp [gateBlocks, hnan, jsLeZero]
  · intro st2 hgb
    cases hp2 : parseIntJS (jsOrDefault st2.quickhire_credits "1") with
    | nan => simp [gateBlocks, hp2, jsLeZero] at hgb
    | int v =>
      refine ⟨v, rfl, ?_⟩
      simp [gateBlocks, hp2, jsLeZero] at hgb
      exact hgb.2
  · intro hv hp
    have hg2 : gateBlocks st = false := by simp [gateBlocks, hnan, jsLeZero]
    cases hel : ui.creditCountEl <;> cases hpe : ui.progressEls <;>
      simp [formSubmitHandler, hg2, hv, hp, hel, hpe, catchResult, hnan,
        jsSub1, jsNumToString]

/-- C9 witness: the theorem applied to a free-plan run whose stored
credits value is a non-numeric string. -/
theorem c9_witness :
    gateBlocks stNanFree = false ∧
    (formSubmitHandler stNanFree uiFull (FetchResult.response true 7)
      (FetchResult.response true 8)).storage.quickhire_credits =
      some "NaN" := by
  have h := c9_nan_credits stNanFree uiFull 7 8 (by decide)
  exact ⟨h.1, h.2.2 (by decide) (by decide)⟩

/-- C10: when the credit-count display element is absent on an otherwise
fully successful run, both downloads have already been triggered and the
non-premium decrement has already been persisted, yet the run takes the
error path: an error notification is surfaced, no success notification
is shown, the success status announcement never happens, and the
progress-completion update never happens. -/
theorem c10_missing_credit_display (st : Storage) (ui : UIState)
    (rb cb : Nat)
    (hg : gateBlocks st = false)
    (hv : firstMissingField (collectFormData ui) = none)
    (hel : ui.creditCountEl = false) :
    downloadsOf (formSubmitHandler st ui (FetchResult.response true rb)
        (FetchResult.response true cb)).events =
      [(rb, "QuickHire_Resume.pdf"), (cb, "QuickHire_Cover_Letter.pdf")] ∧
    (jsOrDefault st.quickhire_plan "free" ≠ "premium" →
      (formSubmitHandler st ui (FetchResult.response true rb)
          (FetchResult.response true cb)).storage.quickhire_credits =
        some (jsNumToString (jsSub1
          (parseIntJS (jsOrDefault st.quickhire_credits "1"))))) ∧
    Event.toast "❌ Error: Cannot set properties of null" "error" ∈
      (formSubmitHandler st ui (FetchResult.response true rb)
        (FetchResult.response true cb)).events ∧
    (∀ m : String, Event.toast m "success" ∉
      (formSubmitHandler st ui (FetchResult.response true rb)
        (FetchResult.response true cb)).events) ∧
    Event.statusSet "Generation complete." ∉
      (formSubmitHandler st ui (FetchResult.response true rb)
        (FetchResult.response true cb)).events ∧
    Event.progressCompleted ∉
      (formSubmitHandler st ui (FetchResult.response true rb)
        (FetchResult.response true cb)).events ∧
    (formSubmitHandler st ui (FetchResult.response true rb)
        (FetchResult.response true cb)).outcome =
      Outcome.failedUnexpected "Cannot set properties of null" := by
  by_cases hp : jsOrDefault st.quickhire_plan "free" = "premium" <;>
    cases hpe : ui.progressEls <;>
    simp [formSubmitHandler, hg, hv, hel, hp, hpe, catchResult, downloadsOf]

/-- C10 witness: the theorem applied to a concrete free-plan run with
the credit-count element absent. -/
theorem c10_witness :
    downloadsOf (formSubmitHandler stFree1 uiNoCreditEl
        (FetchResult.response true 7) (FetchResult.response true 8)).events =
      [(7, "QuickHire_Resume.pdf"), (8, "QuickHire_Cover_Letter.pdf")] ∧
    (formSubmitHandler stFree1 uiNoCreditEl (FetchResult.response true 7)
        (FetchResult.response true 8)).storage.quickhire_credits =
      some (jsNumToString (jsSub1
        (parseIntJS (jsOrDefault stFree1.quickhire_credits "1")))) ∧
    (formSubmitHandler stFree1 uiNoCreditEl (FetchResult.response true 7)
        (FetchResult.response true 8)).outcome =
      Outcome.failedUnexpected "Cannot set properties of null" := by
  have h := c10_missing_credit_display stFree1 uiNoCreditEl 7 8
    (by decide) (by decide) rfl
  exact ⟨h.1, h.2.1 (by decide), h.2.2.2.2.2.2⟩

end QuickHire
